import Mathlib

/-!
Verification of the PacksList configuration/cache manager
(`config-manager.js`) and the static city picker (`location-manager.js`).

The JavaScript classes are shallowly embedded as pure Lean functions over
explicit state records.  JS `Map` objects become association lists with
unique keys (`mapGet` / `mapSet` / `mapDelete` reproduce `Map.get`,
`Map.set`, `Map.delete`); the remote document store (`db.collection
("config").doc(type).get()`) becomes an oracle `Remote : String →
FetchOutcome` distinguishing a thrown error, a missing document and a
found document; `Date.now()` becomes an explicit `now : Nat` argument;
`async` functions that may reject become `Except String` results, with
the source's `try`/`catch` reflected in the definition.  JS `null` and
`undefined` are both modelled by `Option.none`.  Console logging and the
`notifyCallbacks` calls of `ConfigManager` are omitted: they are
side-effect-only and every callback invocation in the source is wrapped
in its own `try`/`catch`.  `LocationManager` listener notification is
modelled explicitly as an emitted event list because the claims refer to
it.
-/

/-- Lookup in a JS `Map` modelled as an association list (`Map.get`). -/
def mapGet {α : Type} (m : List (String × α)) (k : String) : Option α :=
  (m.find? fun p => p.1 == k).map Prod.snd

/-- Update in a JS `Map` (`Map.set`): replace the entry for an existing
key in place, otherwise append a new entry. -/
def mapSet {α : Type} (m : List (String × α)) (k : String) (v : α) :
    List (String × α) :=
  match m with
  | [] => [(k, v)]
  | p :: rest => if p.1 == k then (k, v) :: rest else p :: mapSet rest k v

/-- Deletion from a JS `Map` (`Map.delete`). -/
def mapDelete {α : Type} (m : List (String × α)) (k : String) :
    List (String × α) :=
  m.filter fun p => !(p.1 == k)

/-- A map holds at most one entry per key. -/
def NodupKeys {α : Type} (m : List (String × α)) : Prop :=
  (m.map Prod.fst).Nodup

/-- One element of an `items` array of a configuration document.  The
fields every claim inspects (`id`, `key`, `name`, `isActive`) are
explicit; the remaining scalar payload of each item (state, coordinates,
colors, icons, ...) is carried as string key-value pairs. -/
structure Item where
  id : String
  key : String
  name : String
  isActive : Bool
  extra : List (String × String)
deriving DecidableEq, Repr

/-- A configuration document: an arbitrary JS object.  `items` is the
optional `items` array (`none` models a document without an `items`
key); all other top-level content is carried as string key-value
pairs. -/
structure ConfigData where
  items : Option (List Item)
  fields : List (String × String)
deriving DecidableEq, Repr

/-- The empty mapping `\x7b\x7d`. -/
def emptyConfig : ConfigData :=
  { items := none, fields := [] }

/-- A cache entry: `\x7b data, timestamp \x7d` as stored by
`loadConfigType`. -/
structure CacheEntry where
  data : ConfigData
  timestamp : Nat
deriving DecidableEq, Repr

/-- The mutable state of a `ConfigManager` instance: the `configs` map,
the `cache` map, the cache timeout (5 minutes in the constructor) and
the per-instance session id. -/
structure ConfigManager where
  configs : List (String × ConfigData)
  cache : List (String × CacheEntry)
  cacheTimeout : Nat
  sessionId : String
deriving DecidableEq, Repr

/-- Source: `generateSessionId()` returns
`'sess_' + Math.random().toString(36).substr(2, 12) +
Date.now().toString(36)`.  The two base-36 fragments are supplied as
arguments since they are runtime randomness and the current time. -/
def generateSessionId (randPart timePart : String) : String :=
  "sess_" ++ randPart ++ timePart

/-- A string consisting of base-36 digits, the alphabet produced by
JavaScript `Number.prototype.toString(36)`: `0`-`9` and `a`-`z`. -/
def Base36 (s : String) : Prop :=
  ∀ c ∈ s.data, c.isDigit = true ∨ ('a' ≤ c ∧ c ≤ 'z')

/-- Source: `generatePublicId(type)`: a per-kind string followed by a
random suffix; the suffix is supplied as an argument. -/
def generatePublicId (type : String) (nonce : String) : String :=
  (if type == "pack" then "pack_"
   else if type == "city" then "city_"
   else if type == "user" then "user_"
   else if type == "vendor" then "vend_"
   else if type == "region" then "reg_"
   else "item_") ++ nonce

/-- The cache key computed by `loadConfigType` and `updateConfig`:
`` `config_${type}_${this.sessionId}` ``. -/
def cacheKeyFor (type sessionId : String) : String :=
  "config_" ++ type ++ "_" ++ sessionId

/-- Outcome of one remote read `db.collection("config").doc(type)
.get()`: the awaited promise rejects, or resolves with
`snapshot.exists` false, or resolves with document data. -/
inductive FetchOutcome where
  | err (msg : String)
  | missing
  | found (data : ConfigData)
deriving DecidableEq, Repr

/-- The remote document store, as seen through per-type reads. -/
def Remote : Type := String → FetchOutcome

/-- Source: `getDefaultConfig(type)`: the static built-in default
mapping for each of the six config types (`defaults[type] || \x7b\x7d`).
Item ids are produced by `generatePublicId` with the randomness
abstracted to fixed nonces. -/
def getDefaultConfig (type : String) : ConfigData :=
  if type == "cities" then
    { items := some [
        { id := generatePublicId "city" "n1", key := "boston",
          name := "Boston", isActive := true,
          extra := [("state", "MA"), ("lat", "42.3601"),
                    ("lng", "-71.0589"), ("priority", "1"),
                    ("metroArea", "greater-boston")] },
        { id := generatePublicId "city" "n2", key := "providence",
          name := "Providence", isActive := true,
          extra := [("state", "RI"), ("lat", "41.8240"),
                    ("lng", "-71.4128"), ("priority", "2"),
                    ("metroArea", "providence-metro")] },
        { id := generatePublicId "city" "n3", key := "cambridge",
          name := "Cambridge", isActive := true,
          extra := [("state", "MA"), ("lat", "42.3736"),
                    ("lng", "-71.1097"), ("priority", "3"),
                    ("metroArea", "greater-boston")] }],
      fields := [] }
  else if type == "product-types" then
    { items := some [
        { id := generatePublicId "pack" "n1", key := "indica-pack",
          name := "Indica Pack", isActive := true,
          extra := [("category", "cannabis"),
                    ("searchTerms", "indica relaxing nighttime chill"),
                    ("icon", "🌙")] },
        { id := generatePublicId "pack" "n2", key := "sativa-pack",
          name := "Sativa Pack", isActive := true,
          extra := [("category", "cannabis"),
                    ("searchTerms", "sativa energizing daytime focus"),
                    ("icon", "☀️")] },
        { id := generatePublicId "pack" "n3", key := "hybrid-pack",
          name := "Hybrid Pack", isActive := true,
          extra := [("category", "cannabis"),
                    ("searchTerms", "hybrid balanced mixed versatile"),
                    ("icon", "🌿")] }],
      fields := [] }
  else if type == "vendor-categories" then
    { items := some [
        { id := generatePublicId "vendor" "n1", key := "high-tolerance",
          name := "High Tolerance", isActive := true,
          extra := [("color", "#3498db"), ("icon", "H")] },
        { id := generatePublicId "vendor" "n2", key := "bozo-headstash",
          name := "Bozo Headstash", isActive := true,
          extra := [("color", "#8e44ad"), ("icon", "B")] },
        { id := generatePublicId "vendor" "n3", key := "deep-fried",
          name := "Deep Fried", isActive := true,
          extra := [("color", "#f39c12"), ("icon", "D")] },
        { id := generatePublicId "vendor" "n4", key := "gumbo",
          name := "Gumbo", isActive := true,
          extra := [("color", "#e74c3c"), ("icon", "G")] },
        { id := generatePublicId "vendor" "n5", key := "other",
          name := "Other", isActive := true,
          extra := [("color", "#95a5a6"), ("icon", "O")] }],
      fields := [] }
  else if type == "metro-areas" then
    { items := some [
        { id := generatePublicId "region" "n1", key := "greater-boston",
          name := "Greater Boston", isActive := true,
          extra := [("lat", "42.3601"), ("lng", "-71.0589"),
                    ("radius", "25"),
                    ("cities", "boston cambridge somerville"),
                    ("deliveryRadius", "15")] },
        { id := generatePublicId "region" "n2", key := "providence-metro",
          name := "Providence Metro", isActive := true,
          extra := [("lat", "41.8240"), ("lng", "-71.4128"),
                    ("radius", "20"),
                    ("cities", "providence cranston warwick"),
                    ("deliveryRadius", "12")] }],
      fields := [] }
  else if type == "ui-strings" then
    { items := none,
      fields := [
        ("searchPlaceholders.0", "Search packs in {cityName}..."),
        ("searchPlaceholders.1", "Find {productType} near you..."),
        ("searchPlaceholders.2", "Browse local packs..."),
        ("searchPlaceholders.3", "What are you looking for?"),
        ("searchPlaceholders.4", "Discover packs in your area..."),
        ("locationMessages.0", "Detecting your location in {regionName}..."),
        ("locationMessages.1", "Found {packCount} packs near you"),
        ("locationMessages.2", "Searching {cityName} area..."),
        ("locationMessages.3", "Loading packs in your region..."),
        ("personalizedPlaceholders.returning_user",
          "Welcome back! Search your favorites..."),
        ("personalizedPlaceholders.first_time",
          "Discover packs in your area..."),
        ("personalizedPlaceholders.mobile", "Tap to search nearby packs"),
        ("personalizedPlaceholders.desktop", "Search packs, cities, types..."),
        ("personalizedPlaceholders.evening", "Find evening packs near you..."),
        ("personalizedPlaceholders.morning", "Browse morning selections..."),
        ("errorMessages.location_denied", "Enable location for better results"),
        ("errorMessages.no_results", "No packs found in this area"),
        ("errorMessages.connection_error", "Connection issue - try again"),
        ("errorMessages.loading_error", "Unable to load content")] }
  else if type == "region-settings" then
    { items := none,
      fields := [
        ("defaultRegion", "northeast"),
        ("fallbackLocation.lat", "41.8240"),
        ("fallbackLocation.lng", "-71.4128"),
        ("maxSearchRadius", "50"),
        ("cacheTimeout", "300000"),
        ("privacySettings.fuzzyLocationRadius", "0.01"),
        ("privacySettings.hideExactCoordinates", "true"),
        ("privacySettings.sessionTimeout", "1800000")] }
  else emptyConfig

/-- The body of the `try` block of `loadConfigType` together with its
`catch` handler, entered once the cache did not produce a fresh hit.
On a rejected read the `catch` substitutes `getDefaultConfig(type)`
(cache untouched); on a missing document the default is used and
`createDefaultConfig` writes it back remotely (its own errors are
caught, no local effect); on success the data is cached with the
current timestamp.  In every case `configs` is set and the promise
fulfills. -/
def fetchFreshConfig (remote : Remote) (now : Nat) (cm : ConfigManager)
    (type cacheKey : String) : Except String (ConfigManager × ConfigData) :=
  match remote type with
  | .err _ =>
      let fallback := getDefaultConfig type
      .ok ({ cm with configs := mapSet cm.configs type fallback }, fallback)
  | .missing =>
      let data := getDefaultConfig type
      .ok ({ cm with
               cache := mapSet cm.cache cacheKey
                 { data := data, timestamp := now },
               configs := mapSet cm.configs type data }, data)
  | .found data =>
      .ok ({ cm with
               cache := mapSet cm.cache cacheKey
                 { data := data, timestamp := now },
               configs := mapSet cm.configs type data }, data)

/-- Source: `loadConfigType(type)`.  Computes the session-scoped cache
key, returns the cached data when the entry is younger than
`cacheTimeout` (also refreshing `configs`), and otherwise runs the
fetch path.  The result is `Except` because the source function is
`async`; `.error` would model a rejected promise. -/
def loadConfigType (remote : Remote) (now : Nat) (cm : ConfigManager)
    (type : String) : Except String (ConfigManager × ConfigData) :=
  let cacheKey := cacheKeyFor type cm.sessionId
  match mapGet cm.cache cacheKey with
  | some cached =>
      if (now : Int) - (cached.timestamp : Int) < (cm.cacheTimeout : Int) then
        .ok ({ cm with configs := mapSet cm.configs type cached.data },
             cached.data)
      else fetchFreshConfig remote now cm type cacheKey
  | none => fetchFreshConfig remote now cm type cacheKey

/-- Source: `getConfig(type)` is `this.configs.get(type) || \x7b\x7d`. -/
def getConfig (cm : ConfigManager) (type : String) : ConfigData :=
  (mapGet cm.configs type).getD emptyConfig

/-- Source: `getConfigItem(type, key)`: looks the config up, searches
its `items` array for a matching `key`, returns `null` when there is no
`items` array (and `find` yields `undefined` when no item matches; both
are `none`). -/
def getConfigItem (cm : ConfigManager) (type key : String) : Option Item :=
  match (getConfig cm type).items with
  | some items => items.find? fun item => item.key == key
  | none => none

/-- Source: `getActiveItems(type)`. -/
def getActiveItems (cm : ConfigManager) (type : String) : List Item :=
  match (getConfig cm type).items with
  | some items => items.filter fun item => item.isActive
  | none => []

/-- Source: `clearCache()` is `this.cache.clear()`. -/
def clearCache (cm : ConfigManager) : ConfigManager :=
  { cm with cache := [] }

/-- Outcome of the remote write `db.collection("config").doc(type)
.update(data)` awaited by `updateConfig`. -/
inductive UpdateOutcome where
  | ok
  | fail (msg : String)
deriving DecidableEq, Repr

/-- Merge of the `fields` components under the JS object spread
`\x7b...old, ...new\x7d`: keys of `new` shadow keys of `old`. -/
def mergeFields (old new : List (String × String)) :
    List (String × String) :=
  new.foldl (fun acc p => mapSet acc p.1 p.2) old

/-- The JS spread `\x7b...this.getConfig(type), ...data\x7d`: top-level
keys of `data` shadow the existing config, so an `items` array in
`data` replaces the old one and is kept otherwise. -/
def mergeConfig (old new : ConfigData) : ConfigData :=
  { items := match new.items with
             | some l => some l
             | none => old.items,
    fields := mergeFields old.fields new.fields }

/-- Source: `updateConfig(type, data)`: awaits the remote update; on
rejection the `catch` returns `false` with no local change; on success
it merges `data` into the stored config, deletes this type's cache
entry and returns `true`. -/
def updateConfig (upd : UpdateOutcome) (cm : ConfigManager)
    (type : String) (data : ConfigData) : Bool × ConfigManager :=
  match upd with
  | .fail _ => (false, cm)
  | .ok =>
      let merged := mergeConfig (getConfig cm type) data
      (true,
       { cm with
           configs := mapSet cm.configs type merged,
           cache := mapDelete cm.cache (cacheKeyFor type cm.sessionId) })

/-- The six config types enumerated by `loadAllConfigs`. -/
def configTypes : List String :=
  ["cities", "product-types", "vendor-categories", "metro-areas",
   "ui-strings", "region-settings"]

/-- The per-promise records produced by `Promise.allSettled`. -/
inductive Settled where
  | fulfilled (value : ConfigData)
  | rejected (reason : String)
deriving DecidableEq, Repr

/-- Whether a settled record is `fulfilled`. -/
def Settled.isFulfilled : Settled → Bool
  | .fulfilled _ => true
  | .rejected _ => false

/-- The fold of `loadConfigType` over an explicit issue order, joining
the outcomes as `Promise.allSettled` does: each promise contributes one
settled record and a rejection never escapes the combinator. -/
def loadAllConfigsIn (remote : Remote) (now : Nat) (cm : ConfigManager)
    (order : List String) : ConfigManager × List Settled :=
  order.foldl
    (fun acc type =>
      match loadConfigType remote now acc.1 type with
      | .ok (cm', d) => (cm', acc.2 ++ [Settled.fulfilled d])
      | .error e => (acc.1, acc.2 ++ [Settled.rejected e]))
    (cm, [])

/-- Source: `loadAllConfigs()` maps `loadConfigType` over the six
config types and awaits `Promise.allSettled` of the batch.  The event
loop runs the loads in some order; `configTypes` order is the
representative one, and order independence is proved separately. -/
def loadAllConfigs (remote : Remote) (now : Nat) (cm : ConfigManager) :
    ConfigManager × List Settled :=
  loadAllConfigsIn remote now cm configTypes

/-- One entry of the static city list of `LocationManager`.  The
IEEE-754 coordinate literals are carried as opaque decimal strings: no
claim computes with them. -/
structure City where
  name : String
  state : String
  key : String
  lat : String
  lng : String
deriving DecidableEq, Repr

/-- The twelve cities hardcoded in the `LocationManager` constructor. -/
def defaultCities : List City :=
  [{ name := "Boston", state := "MA", key := "boston",
     lat := "42.3601", lng := "-71.0589" },
   { name := "Springfield", state := "MA", key := "springfield",
     lat := "42.1015", lng := "-72.5898" },
   { name := "Worcester", state := "MA", key := "worcester",
     lat := "42.2626", lng := "-71.8023" },
   { name := "South Coast", state := "MA", key := "south-coast",
     lat := "41.6362", lng := "-70.9342" },
   { name := "North Shore", state := "MA", key := "north-shore",
     lat := "42.6648", lng := "-71.1581" },
   { name := "Providence", state := "RI", key := "providence",
     lat := "41.8240", lng := "-71.4128" },
   { name := "Newport", state := "RI", key := "newport",
     lat := "41.4901", lng := "-71.3128" },
   { name := "Woonsocket", state := "RI", key := "woonsocket",
     lat := "42.0029", lng := "-71.5153" },
   { name := "Hartford", state := "CT", key := "hartford",
     lat := "41.7658", lng := "-72.6734" },
   { name := "New Haven", state := "CT", key := "new-haven",
     lat := "41.3083", lng := "-72.9279" },
   { name := "Bridgeport", state := "CT", key := "bridgeport",
     lat := "41.1865", lng := "-73.2052" },
   { name := "Stamford", state := "CT", key := "stamford",
     lat := "41.0534", lng := "-73.5387" }]

/-- The mutable state of a `LocationManager` instance.  Listener
callbacks are opaque to the model and represented by identifiers; an
invocation is modelled as an emitted `(listener, city)` event. -/
structure LocationManager where
  currentCity : Option City
  cities : List City
  listeners : List Nat
deriving DecidableEq, Repr

/-- Source: `getCityByKey(key)` is
`this.cities.find(city => city.key === key)`. -/
def getCityByKey (lm : LocationManager) (key : String) : Option City :=
  lm.cities.find? fun city => city.key == key

/-- Source: `getCurrentCity()`. -/
def getCurrentCity (lm : LocationManager) : Option City :=
  lm.currentCity

/-- Source: `setCurrentCity(cityKey)`: an unknown key logs an error and
returns `false` with nothing changed; a known key sets `currentCity`,
persists the key under `packslist-selected-city` in browser storage,
notifies every listener with the city and returns `true`.  The result
is `(return value, new manager, new browser storage, notifications)`. -/
def setCurrentCity (lm : LocationManager) (store : List (String × String))
    (cityKey : String) :
    Bool × LocationManager × List (String × String) × List (Nat × City) :=
  match getCityByKey lm cityKey with
  | none => (false, lm, store, [])
  | some city =>
      (true,
       { lm with currentCity := some city },
       mapSet store "packslist-selected-city" cityKey,
       lm.listeners.map fun l => (l, city))


/-! ## Map lemmas -/

theorem mapGet_nil {α : Type} (k : String) :
    mapGet ([] : List (String × α)) k = none := rfl

theorem mapGet_cons {α : Type} (p : String × α) (rest : List (String × α))
    (k : String) :
    mapGet (p :: rest) k = if p.1 = k then some p.2 else mapGet rest k := by
  unfold mapGet
  rw [List.find?]
  by_cases h : p.1 = k
  · simp [h]
  · have hb : (p.1 == k) = false := beq_eq_false_iff_ne.mpr h
    simp [hb, h]

theorem mapGet_mapSet {α : Type} (m : List (String × α)) (k k' : String)
    (v : α) :
    mapGet (mapSet m k v) k' = if k' = k then some v else mapGet m k' := by
  induction m with
  | nil =>
      by_cases h : k' = k
      · subst h
        simp [mapSet, mapGet_cons]
      · simp [mapSet, mapGet_cons, mapGet_nil, h, Ne.symm h]
  | cons p rest ih =>
      by_cases hp : p.1 = k
      · by_cases h : k' = k
        · subst h
          simp [mapSet, mapGet_cons, beq_iff_eq, hp]
        · simp [mapSet, mapGet_cons, beq_iff_eq, hp, h, Ne.symm h]
      · by_cases h : k' = k
        · subst h
          simp [mapSet, mapGet_cons, beq_iff_eq, hp, ih]
        · simp [mapSet, mapGet_cons, beq_iff_eq, hp, h, ih]

theorem mapGet_mapDelete {α : Type} (m : List (String × α)) (k k' : String) :
    mapGet (mapDelete m k) k' = if k' = k then none else mapGet m k' := by
  induction m with
  | nil => simp [mapDelete, mapGet_nil]
  | cons p rest ih =>
      by_cases hp : p.1 = k
      · by_cases h : k' = k
        · subst h
          simp [mapDelete, List.filter_cons, beq_iff_eq, hp, ih,
            mapDelete] at *
          assumption
        · have : mapDelete (p :: rest) k = mapDelete rest k := by
            simp [mapDelete, List.filter_cons, beq_iff_eq, hp]
          rw [this, ih, mapGet_cons]
          simp [h, hp, Ne.symm h]
      · have : mapDelete (p :: rest) k = p :: mapDelete rest k := by
          simp [mapDelete, List.filter_cons, beq_iff_eq, hp]
        rw [this, mapGet_cons, ih, mapGet_cons]
        by_cases h : k' = k
        · subst h
          simp [hp]
        · simp [h]

theorem keys_mapSet_subset {α : Type} (m : List (String × α)) (k : String)
    (v : α) (a : String) (ha : a ∈ (mapSet m k v).map Prod.fst) :
    a = k ∨ a ∈ m.map Prod.fst := by
  induction m with
  | nil => simpa [mapSet] using ha
  | cons p rest ih =>
      by_cases hp : p.1 = k
      · simp only [mapSet, beq_iff_eq, hp, if_true, List.map_cons,
          List.mem_cons] at ha ⊢
        tauto
      · simp only [mapSet, beq_iff_eq, hp, if_false, List.map_cons,
          List.mem_cons] at ha ⊢
        rcases ha with ha | ha
        · tauto
        · rcases ih ha with h | h <;> tauto

theorem NodupKeys_mapSet {α : Type} (m : List (String × α)) (k : String)
    (v : α) (h : NodupKeys m) : NodupKeys (mapSet m k v) := by
  induction m with
  | nil => simp [mapSet, NodupKeys]
  | cons p rest ih =>
      unfold NodupKeys at h
      simp only [List.map_cons, List.nodup_cons] at h
      by_cases hp : p.1 = k
      · unfold NodupKeys
        simp only [mapSet, beq_iff_eq, hp, if_true, List.map_cons,
          List.nodup_cons]
        exact ⟨hp ▸ h.1, h.2⟩
      · unfold NodupKeys
        simp only [mapSet, beq_iff_eq, hp, if_false, List.map_cons,
          List.nodup_cons]
        refine ⟨fun hc => ?_, ih h.2⟩
        rcases keys_mapSet_subset rest k v p.1 hc with h' | h'
        · exact hp h'
        · exact h.1 h'

theorem NodupKeys_mapDelete {α : Type} (m : List (String × α)) (k : String)
    (h : NodupKeys m) : NodupKeys (mapDelete m k) := by
  unfold NodupKeys mapDelete at *
  exact (List.Sublist.map Prod.fst (List.filter_sublist m)).nodup h

/-! ## Characterization of `loadConfigType` -/

/-- What the fetch path computes: the returned data together with the
cache entry it stores, if any. -/
def fetchPlan (remote : Remote) (now : Nat) (type : String) :
    ConfigData × Option CacheEntry :=
  match remote type with
  | .err _ => (getDefaultConfig type, none)
  | .missing =>
      (getDefaultConfig type,
       some { data := getDefaultConfig type, timestamp := now })
  | .found d => (d, some { data := d, timestamp := now })

/-- What one `loadConfigType` call computes, as a function of the cached
entry under this type's cache key. -/
def loadPlan (remote : Remote) (timeout now : Nat)
    (cached : Option CacheEntry) (type : String) :
    ConfigData × Option CacheEntry :=
  match cached with
  | some e =>
      if (now : Int) - (e.timestamp : Int) < (timeout : Int) then (e.data, none)
      else fetchPlan remote now type
  | none => fetchPlan remote now type

/-- Application of a load plan to the manager state: `configs` is set to
the returned data and the cache entry, when present, is stored under
this type's cache key. -/
def applyLoad (cm : ConfigManager) (type : String)
    (o : ConfigData × Option CacheEntry) : ConfigManager :=
  { cm with
      configs := mapSet cm.configs type o.1,
      cache := match o.2 with
               | some e => mapSet cm.cache (cacheKeyFor type cm.sessionId) e
               | none => cm.cache }

/-- Abbreviation for the plan a `loadConfigType` call follows on a given
state. -/
def planOf (remote : Remote) (now : Nat) (cm : ConfigManager)
    (type : String) : ConfigData × Option CacheEntry :=
  loadPlan remote cm.cacheTimeout now
    (mapGet cm.cache (cacheKeyFor type cm.sessionId)) type

theorem loadConfigType_eq_plan (remote : Remote) (now : Nat)
    (cm : ConfigManager) (type : String) :
    loadConfigType remote now cm type =
      .ok (applyLoad cm type (planOf remote now cm type),
           (planOf remote now cm type).1) := by
  unfold loadConfigType fetchFreshConfig planOf loadPlan fetchPlan applyLoad
  cases h : mapGet cm.cache (cacheKeyFor type cm.sessionId) with
  | none => cases hr : remote type <;> simp [h, hr]
  | some e =>
      by_cases ht : (now : Int) - (e.timestamp : Int) < (cm.cacheTimeout : Int)
      · simp [h, ht]
      · cases hr : remote type <;> simp [h, ht, hr]

/-- The state transition of one awaited `loadConfigType` call. -/
def loadStep (remote : Remote) (now : Nat) (cm : ConfigManager)
    (type : String) : ConfigManager :=
  match loadConfigType remote now cm type with
  | .ok (cm', _) => cm'
  | .error _ => cm

theorem loadStep_eq (remote : Remote) (now : Nat) (cm : ConfigManager)
    (type : String) :
    loadStep remote now cm type =
      applyLoad cm type (planOf remote now cm type) := by
  unfold loadStep
  rw [loadConfigType_eq_plan]

theorem applyLoad_sessionId (cm : ConfigManager) (type : String)
    (o : ConfigData × Option CacheEntry) :
    (applyLoad cm type o).sessionId = cm.sessionId := by
  unfold applyLoad
  cases o.2 <;> rfl

theorem applyLoad_cacheTimeout (cm : ConfigManager) (type : String)
    (o : ConfigData × Option CacheEntry) :
    (applyLoad cm type o).cacheTimeout = cm.cacheTimeout := by
  unfold applyLoad
  cases o.2 <;> rfl

theorem mapGet_applyLoad_configs (cm : ConfigManager) (type : String)
    (o : ConfigData × Option CacheEntry) (k : String) :
    mapGet (applyLoad cm type o).configs k =
      if k = type then some o.1 else mapGet cm.configs k := by
  unfold applyLoad
  simp [mapGet_mapSet]

theorem mapGet_applyLoad_cache_none (cm : ConfigManager) (type : String)
    (o : ConfigData × Option CacheEntry) (h : o.2 = none) (k : String) :
    mapGet (applyLoad cm type o).cache k = mapGet cm.cache k := by
  unfold applyLoad
  rw [h]

theorem mapGet_applyLoad_cache_some (cm : ConfigManager) (type : String)
    (o : ConfigData × Option CacheEntry) (e : CacheEntry) (h : o.2 = some e)
    (k : String) :
    mapGet (applyLoad cm type o).cache k =
      if k = cacheKeyFor type cm.sessionId then some e
      else mapGet cm.cache k := by
  unfold applyLoad
  rw [h]
  simp [mapGet_mapSet]

/-! ## Cache-key string lemmas -/

theorem string_data_inj {s t : String} (h : s.data = t.data) : s = t := by
  cases s
  cases t
  simp only at h
  rw [h]

theorem cacheKeyFor_data (ty s : String) :
    (cacheKeyFor ty s).data =
      ("config_" : String).data ++ ty.data ++ '_' :: s.data := by
  have hu : ("_" : String).data = ['_'] := rfl
  simp [cacheKeyFor, String.data_append, hu, List.append_assoc]

theorem cacheKeyFor_type_inj {ty1 ty2 s : String}
    (h : cacheKeyFor ty1 s = cacheKeyFor ty2 s) : ty1 = ty2 := by
  have hd := congrArg String.data h
  rw [cacheKeyFor_data, cacheKeyFor_data, List.append_assoc,
    List.append_assoc] at hd
  have h1 := List.append_cancel_left hd
  exact string_data_inj (List.append_cancel_right h1)

theorem base36_ne_underscore {c : Char}
    (h : c.isDigit = true ∨ ('a' ≤ c ∧ c ≤ 'z')) : c ≠ '_' := by
  rintro rfl
  rcases h with h | ⟨h1, h2⟩
  · simp [Char.isDigit] at h
  · exact absurd h1 (by decide)

theorem count_underscore_base36 {s : String} (h : Base36 s) :
    s.data.count '_' = 0 := by
  refine List.count_eq_zero.mpr fun hc => ?_
  exact base36_ne_underscore (h '_' hc) rfl

theorem count_underscore_session {r t : String} (hr : Base36 r)
    (ht : Base36 t) : (generateSessionId r t).data.count '_' = 1 := by
  have hs : ("sess_" : String).data.count '_' = 1 := by decide
  simp [generateSessionId, String.data_append, List.count_append,
    count_underscore_base36 hr, count_underscore_base36 ht, hs]

/-! ## Observational equivalence of manager states -/

/-- Two maps agree on every lookup. -/
def MapExt {α : Type} (m₁ m₂ : List (String × α)) : Prop :=
  ∀ k, mapGet m₁ k = mapGet m₂ k

/-- Two manager states are indistinguishable through `Map` lookups and
the scalar fields. -/
def CMEquiv (a b : ConfigManager) : Prop :=
  MapExt a.configs b.configs ∧ MapExt a.cache b.cache ∧
    a.cacheTimeout = b.cacheTimeout ∧ a.sessionId = b.sessionId

theorem CMEquiv_refl (a : ConfigManager) : CMEquiv a a :=
  ⟨fun _ => rfl, fun _ => rfl, rfl, rfl⟩

theorem CMEquiv_trans {a b c : ConfigManager} (h1 : CMEquiv a b)
    (h2 : CMEquiv b c) : CMEquiv a c :=
  ⟨fun k => (h1.1 k).trans (h2.1 k), fun k => (h1.2.1 k).trans (h2.2.1 k),
   h1.2.2.1.trans h2.2.2.1, h1.2.2.2.trans h2.2.2.2⟩

theorem planOf_congr {a b : ConfigManager} (remote : Remote) (now : Nat)
    (t : String) (h : CMEquiv a b) :
    planOf remote now a t = planOf remote now b t := by
  unfold planOf
  rw [h.2.2.1, h.2.2.2, h.2.1 (cacheKeyFor t b.sessionId)]

theorem applyLoad_congr {a b : ConfigManager} (t : String)
    (o : ConfigData × Option CacheEntry) (h : CMEquiv a b) :
    CMEquiv (applyLoad a t o) (applyLoad b t o) := by
  refine ⟨fun k => ?_, fun k => ?_, ?_, ?_⟩
  · rw [mapGet_applyLoad_configs, mapGet_applyLoad_configs, h.1 k]
  · cases ho : o.2 with
    | none =>
        rw [mapGet_applyLoad_cache_none a t o ho,
          mapGet_applyLoad_cache_none b t o ho, h.2.1 k]
    | some e =>
        rw [mapGet_applyLoad_cache_some a t o e ho,
          mapGet_applyLoad_cache_some b t o e ho, h.2.1 k, h.2.2.2]
  · rw [applyLoad_cacheTimeout, applyLoad_cacheTimeout, h.2.2.1]
  · rw [applyLoad_sessionId, applyLoad_sessionId, h.2.2.2]

theorem loadStep_congr {a b : ConfigManager} (remote : Remote) (now : Nat)
    (t : String) (h : CMEquiv a b) :
    CMEquiv (loadStep remote now a t) (loadStep remote now b t) := by
  rw [loadStep_eq, loadStep_eq, planOf_congr remote now t h]
  exact applyLoad_congr t _ h

theorem planOf_applyLoad {cm : ConfigManager} (remote : Remote) (now : Nat)
    {t1 t2 : String} (o : ConfigData × Option CacheEntry) (hne : t1 ≠ t2) :
    planOf remote now (applyLoad cm t1 o) t2 = planOf remote now cm t2 := by
  have hkey : cacheKeyFor t1 cm.sessionId ≠ cacheKeyFor t2 cm.sessionId :=
    fun hc => hne (cacheKeyFor_type_inj hc)
  unfold planOf
  rw [applyLoad_cacheTimeout, applyLoad_sessionId]
  congr 1
  cases ho : o.2 with
  | none => rw [mapGet_applyLoad_cache_none cm t1 o ho]
  | some e =>
      rw [mapGet_applyLoad_cache_some cm t1 o e ho,
        if_neg fun hc => hkey hc.symm]

theorem mapGet_applyLoad_cache_pair_none (cm : ConfigManager)
    (type : String) (d : ConfigData) (k : String) :
    mapGet (applyLoad cm type (d, none)).cache k = mapGet cm.cache k := rfl

theorem mapGet_applyLoad_cache_pair_some (cm : ConfigManager)
    (type : String) (d : ConfigData) (e : CacheEntry) (k : String) :
    mapGet (applyLoad cm type (d, some e)).cache k =
      if k = cacheKeyFor type cm.sessionId then some e
      else mapGet cm.cache k := by
  unfold applyLoad
  simp [mapGet_mapSet]

theorem applyLoad_comm {cm : ConfigManager} {t1 t2 : String}
    (o1 o2 : ConfigData × Option CacheEntry) (hne : t1 ≠ t2) :
    CMEquiv (applyLoad (applyLoad cm t1 o1) t2 o2)
      (applyLoad (applyLoad cm t2 o2) t1 o1) := by
  have hkey : cacheKeyFor t1 cm.sessionId ≠ cacheKeyFor t2 cm.sessionId :=
    fun hc => hne (cacheKeyFor_type_inj hc)
  refine ⟨fun k => ?_, fun k => ?_, ?_, ?_⟩
  · rw [mapGet_applyLoad_configs, mapGet_applyLoad_configs,
      mapGet_applyLoad_configs, mapGet_applyLoad_configs]
    by_cases h2 : k = t2
    · subst h2
      rw [if_pos rfl, if_neg (fun hc => hne hc.symm), if_pos rfl]
    · rw [if_neg h2]
      by_cases h1 : k = t1
      · subst h1
        rw [if_pos rfl, if_pos rfl]
      · rw [if_neg h1, if_neg h1, if_neg h2]
  · obtain ⟨d1, s1⟩ := o1
    obtain ⟨d2, s2⟩ := o2
    cases s1 with
    | none =>
        cases s2 with
        | none =>
            simp only [mapGet_applyLoad_cache_pair_none]
        | some e2 =>
            simp only [mapGet_applyLoad_cache_pair_none,
              mapGet_applyLoad_cache_pair_some, applyLoad_sessionId]
    | some e1 =>
        cases s2 with
        | none =>
            simp only [mapGet_applyLoad_cache_pair_none,
              mapGet_applyLoad_cache_pair_some, applyLoad_sessionId]
        | some e2 =>
            simp only [mapGet_applyLoad_cache_pair_some, applyLoad_sessionId]
            by_cases hk2 : k = cacheKeyFor t2 cm.sessionId
            · subst hk2
              rw [if_pos rfl, if_neg fun hc => hkey hc.symm, if_pos rfl]
            · rw [if_neg hk2]
              by_cases hk1 : k = cacheKeyFor t1 cm.sessionId
              · subst hk1
                rw [if_pos rfl, if_pos rfl]
              · rw [if_neg hk1, if_neg hk1, if_neg hk2]
  · rw [applyLoad_cacheTimeout, applyLoad_cacheTimeout,
      applyLoad_cacheTimeout, applyLoad_cacheTimeout]
  · rw [applyLoad_sessionId, applyLoad_sessionId, applyLoad_sessionId,
      applyLoad_sessionId]

theorem loadStep_comm (remote : Remote) (now : Nat) (cm : ConfigManager)
    {t1 t2 : String} (hne : t1 ≠ t2) :
    CMEquiv (loadStep remote now (loadStep remote now cm t1) t2)
      (loadStep remote now (loadStep remote now cm t2) t1) := by
  rw [loadStep_eq remote now cm t1, loadStep_eq remote now cm t2,
    loadStep_eq, loadStep_eq,
    planOf_applyLoad remote now (planOf remote now cm t1) hne,
    planOf_applyLoad remote now (planOf remote now cm t2)
      (fun h => hne h.symm)]
  exact applyLoad_comm _ _ hne

/-! ## Folding loads over a list of types -/

theorem loadAllConfigsIn_fst (remote : Remote) (now : Nat)
    (cm : ConfigManager) (order : List String) :
    (loadAllConfigsIn remote now cm order).1 =
      order.foldl (loadStep remote now) cm := by
  suffices h : ∀ (order : List String) (cm : ConfigManager)
      (l : List Settled),
      (order.foldl
        (fun acc type =>
          match loadConfigType remote now acc.1 type with
          | .ok (cm', d) => (cm', acc.2 ++ [Settled.fulfilled d])
          | .error e => (acc.1, acc.2 ++ [Settled.rejected e]))
        (cm, l)).1 =
      order.foldl (loadStep remote now) cm by
    exact h order cm []
  intro order
  induction order with
  | nil => intro cm l; rfl
  | cons t rest ih =>
      intro cm l
      simp only [List.foldl_cons]
      cases hres : loadConfigType remote now cm t with
      | ok pr =>
          obtain ⟨cm', d⟩ := pr
          have hstep : loadStep remote now cm t = cm' := by
            unfold loadStep
            rw [hres]
          simp only [hres, hstep]
          exact ih cm' (l ++ [Settled.fulfilled d])
      | error e =>
          have hstep : loadStep remote now cm t = cm := by
            unfold loadStep
            rw [hres]
          simp only [hres, hstep]
          exact ih cm (l ++ [Settled.rejected e])

theorem foldl_loadStep_congr (remote : Remote) (now : Nat)
    (l : List String) :
    ∀ {a b : ConfigManager}, CMEquiv a b →
      CMEquiv (l.foldl (loadStep remote now) a)
        (l.foldl (loadStep remote now) b) := by
  induction l with
  | nil => intro a b h; simpa using h
  | cons t rest ih =>
      intro a b h
      simp only [List.foldl_cons]
      exact ih (loadStep_congr remote now t h)

theorem foldl_loadStep_perm (remote : Remote) (now : Nat)
    {l l' : List String} (hp : l.Perm l') :
    ∀ cm : ConfigManager,
      CMEquiv (l.foldl (loadStep remote now) cm)
        (l'.foldl (loadStep remote now) cm) := by
  induction hp with
  | nil => intro cm; exact CMEquiv_refl _
  | cons x hp ih =>
      intro cm
      simp only [List.foldl_cons]
      exact ih (loadStep remote now cm x)
  | swap x y l =>
      intro cm
      simp only [List.foldl_cons]
      by_cases hxy : x = y
      · subst hxy
        exact CMEquiv_refl _
      · exact foldl_loadStep_congr remote now l
          (loadStep_comm remote now cm fun h => hxy h.symm)
  | trans hp1 hp2 ih1 ih2 =>
      intro cm
      exact CMEquiv_trans (ih1 cm) (ih2 cm)

/-! ## Plan evaluation helpers -/

theorem planOf_of_none (remote : Remote) (now : Nat) (cm : ConfigManager)
    (type : String)
    (h : mapGet cm.cache (cacheKeyFor type cm.sessionId) = none) :
    planOf remote now cm type = fetchPlan remote now type := by
  unfold planOf loadPlan
  rw [h]

theorem planOf_of_cached (remote : Remote) (now : Nat) (cm : ConfigManager)
    (type : String) (e : CacheEntry)
    (h : mapGet cm.cache (cacheKeyFor type cm.sessionId) = some e) :
    planOf remote now cm type =
      if (now : Int) - (e.timestamp : Int) < (cm.cacheTimeout : Int)
      then (e.data, none) else fetchPlan remote now type := by
  unfold planOf loadPlan
  rw [h]

theorem fetchPlan_found (remote : Remote) (now : Nat) (type : String)
    (d : ConfigData) (h : remote type = .found d) :
    fetchPlan remote now type = (d, some { data := d, timestamp := now }) := by
  unfold fetchPlan
  rw [h]

theorem fetchPlan_missing (remote : Remote) (now : Nat) (type : String)
    (h : remote type = .missing) :
    fetchPlan remote now type =
      (getDefaultConfig type,
       some { data := getDefaultConfig type, timestamp := now }) := by
  unfold fetchPlan
  rw [h]

theorem fetchPlan_err (remote : Remote) (now : Nat) (type : String)
    (msg : String) (h : remote type = .err msg) :
    fetchPlan remote now type = (getDefaultConfig type, none) := by
  unfold fetchPlan
  rw [h]

theorem getConfig_applyLoad_self (cm : ConfigManager) (type : String)
    (o : ConfigData × Option CacheEntry) :
    getConfig (applyLoad cm type o) type = o.1 := by
  unfold getConfig
  rw [mapGet_applyLoad_configs, if_pos rfl]
  rfl

theorem fetchFreshConfig_eq_plan (remote : Remote) (now : Nat)
    (cm : ConfigManager) (type : String) :
    fetchFreshConfig remote now cm type (cacheKeyFor type cm.sessionId) =
      .ok (applyLoad cm type (fetchPlan remote now type),
           (fetchPlan remote now type).1) := by
  unfold fetchFreshConfig fetchPlan applyLoad
  cases hr : remote type <;> simp [hr]

/-! ## Concrete instances used by the witnesses -/

/-- A sample remote document for concrete runs. -/
def sampleData : ConfigData :=
  { items := some [{ id := "id1", key := "kk", name := "Sample",
                     isActive := true, extra := [] }],
    fields := [("theme", "dark")] }

/-- A sample remote store: the `cities` document exists, every other
read rejects. -/
def sampleRemote : Remote :=
  fun t => if t == "cities" then .found sampleData else .err "network down"

/-- A freshly constructed manager with an empty cache. -/
def sampleManager : ConfigManager :=
  { configs := [], cache := [], cacheTimeout := 300000,
    sessionId := generateSessionId "abc4" "k9" }

/-! ## Claims -/

/-- C1: for every config type, after `loadConfigType(type)` succeeds
with a fetched document, `getConfig(type)` returns the fetched value; a
second `loadConfigType(type)` issued while `now - cached.timestamp <
cacheTimeout` returns the cached value (whatever the remote store now
holds), and once the timeout has elapsed a subsequent `loadConfigType
(type)` fetches from the remote store again. -/
theorem loadConfigType_cache_lifecycle (remote : Remote) (now1 : Nat)
    (cm : ConfigManager) (type : String) (d : ConfigData)
    (hmiss : mapGet cm.cache (cacheKeyFor type cm.sessionId) = none)
    (hfetch : remote type = .found d) :
    ∃ cm1, loadConfigType remote now1 cm type = .ok (cm1, d) ∧
      getConfig cm1 type = d ∧
      (∀ (remote2 : Remote) (now2 : Nat),
        (now2 : Int) - (now1 : Int) < (cm.cacheTimeout : Int) →
        ∃ cm2, loadConfigType remote2 now2 cm1 type = .ok (cm2, d) ∧
          getConfig cm2 type = d) ∧
      (∀ (remote3 : Remote) (now3 : Nat) (d3 : ConfigData),
        ¬((now3 : Int) - (now1 : Int) < (cm.cacheTimeout : Int)) →
        remote3 type = .found d3 →
        ∃ cm3, loadConfigType remote3 now3 cm1 type = .ok (cm3, d3) ∧
          getConfig cm3 type = d3) := by
  have hplan : planOf remote now1 cm type =
      (d, some { data := d, timestamp := now1 }) := by
    rw [planOf_of_none remote now1 cm type hmiss,
      fetchPlan_found remote now1 type d hfetch]
  refine ⟨applyLoad cm type (d, some { data := d, timestamp := now1 }),
    ?_, ?_, ?_, ?_⟩
  · rw [loadConfigType_eq_plan, hplan]
  · exact getConfig_applyLoad_self cm type _
  · intro remote2 now2 hfresh
    have hcached : mapGet
        (applyLoad cm type (d, some { data := d, timestamp := now1 })).cache
        (cacheKeyFor type
          (applyLoad cm type
            (d, some { data := d, timestamp := now1 })).sessionId) =
        some { data := d, timestamp := now1 } := by
      rw [applyLoad_sessionId, mapGet_applyLoad_cache_pair_some, if_pos rfl]
    have hplan2 : planOf remote2 now2
        (applyLoad cm type (d, some { data := d, timestamp := now1 })) type =
        (d, none) := by
      rw [planOf_of_cached remote2 now2 _ type _ hcached,
        applyLoad_cacheTimeout, if_pos hfresh]
    refine ⟨applyLoad
      (applyLoad cm type (d, some { data := d, timestamp := now1 }))
      type (d, none), ?_, ?_⟩
    · rw [loadConfigType_eq_plan, hplan2]
    · exact getConfig_applyLoad_self _ type _
  · intro remote3 now3 d3 hstale hfetch3
    have hcached : mapGet
        (applyLoad cm type (d, some { data := d, timestamp := now1 })).cache
        (cacheKeyFor type
          (applyLoad cm type
            (d, some { data := d, timestamp := now1 })).sessionId) =
        some { data := d, timestamp := now1 } := by
      rw [applyLoad_sessionId, mapGet_applyLoad_cache_pair_some, if_pos rfl]
    have hplan3 : planOf remote3 now3
        (applyLoad cm type (d, some { data := d, timestamp := now1 })) type =
        (d3, some { data := d3, timestamp := now3 }) := by
      rw [planOf_of_cached remote3 now3 _ type _ hcached,
        applyLoad_cacheTimeout, if_neg hstale,
        fetchPlan_found remote3 now3 type d3 hfetch3]
    refine ⟨applyLoad
      (applyLoad cm type (d, some { data := d, timestamp := now1 }))
      type (d3, some { data := d3, timestamp := now3 }), ?_, ?_⟩
    · rw [loadConfigType_eq_plan, hplan3]
    · exact getConfig_applyLoad_self _ type _

/-- Witness for C1: a concrete fresh manager, a found `cities` document
and a cache hit at `now = 100` even though the remote store has gone
offline. -/
theorem loadConfigType_cache_lifecycle_witness :
    mapGet sampleManager.cache
        (cacheKeyFor "cities" sampleManager.sessionId) = none ∧
    sampleRemote "cities" = .found sampleData ∧
    ∃ cm1, loadConfigType sampleRemote 0 sampleManager "cities" =
        .ok (cm1, sampleData) ∧
      getConfig cm1 "cities" = sampleData ∧
      ∃ cm2, loadConfigType (fun _ => .err "offline") 100 cm1 "cities" =
          .ok (cm2, sampleData) ∧
        getConfig cm2 "cities" = sampleData := by
  refine ⟨rfl, by decide, ?_⟩
  obtain ⟨cm1, h1, h2, h3, _⟩ :=
    loadConfigType_cache_lifecycle sampleRemote 0 sampleManager "cities"
      sampleData rfl (by decide)
  obtain ⟨cm2, h4, h5⟩ :=
    h3 (fun _ => .err "offline") 100 (by decide)
  exact ⟨cm1, h1, h2, cm2, h4, h5⟩

/-- C2: `loadConfigType(type)` never propagates an error: every call
fulfills, and when the remote fetch fails (with no fresh cache entry
short-circuiting the fetch) the error is caught, the built-in default
mapping `getDefaultConfig(type)` is returned, and a subsequent
`getConfig(type)` returns that default mapping. -/
theorem loadConfigType_degrades_to_defaults (remote : Remote) (now : Nat)
    (cm : ConfigManager) (type msg : String)
    (herr : remote type = .err msg)
    (hnofresh : ∀ e,
      mapGet cm.cache (cacheKeyFor type cm.sessionId) = some e →
      ¬((now : Int) - (e.timestamp : Int) < (cm.cacheTimeout : Int))) :
    (∀ (r : Remote) (n : Nat) (c : ConfigManager) (t : String),
      ∃ res, loadConfigType r n c t = .ok res) ∧
    ∃ cm', loadConfigType remote now cm type =
        .ok (cm', getDefaultConfig type) ∧
      getConfig cm' type = getDefaultConfig type := by
  constructor
  · intro r n c t
    exact ⟨_, loadConfigType_eq_plan r n c t⟩
  · have hplan : planOf remote now cm type = (getDefaultConfig type, none) := by
      cases hc : mapGet cm.cache (cacheKeyFor type cm.sessionId) with
      | none =>
          rw [planOf_of_none remote now cm type hc,
            fetchPlan_err remote now type msg herr]
      | some e =>
          rw [planOf_of_cached remote now cm type e hc,
            if_neg (hnofresh e hc), fetchPlan_err remote now type msg herr]
    refine ⟨applyLoad cm type (getDefaultConfig type, none), ?_, ?_⟩
    · rw [loadConfigType_eq_plan, hplan]
    · exact getConfig_applyLoad_self cm type _

/-- Witness for C2: the sample remote store rejects the
`product-types` read and the load degrades to the built-in default. -/
theorem loadConfigType_degrades_to_defaults_witness :
    sampleRemote "product-types" = .err "network down" ∧
    ∃ cm', loadConfigType sampleRemote 7 sampleManager "product-types" =
        .ok (cm', getDefaultConfig "product-types") ∧
      getConfig cm' "product-types" = getDefaultConfig "product-types" := by
  refine ⟨by decide, ?_⟩
  exact (loadConfigType_degrades_to_defaults sampleRemote 7 sampleManager
    "product-types" "network down" (by decide)
    (fun e h => Option.noConfusion h)).2

/-- C3: `getConfig(type)` is synchronous and total: it returns the
empty mapping when the type was never stored, the stored value when
present, and after a load or a successful update it returns the value
that operation stored for the type. -/
theorem getConfig_total_last_write (cm : ConfigManager) (type : String) :
    (mapGet cm.configs type = none → getConfig cm type = emptyConfig) ∧
    (∀ d, mapGet cm.configs type = some d → getConfig cm type = d) ∧
    (∀ (remote : Remote) (now : Nat) (cm' : ConfigManager) (d : ConfigData),
      loadConfigType remote now cm type = .ok (cm', d) →
      getConfig cm' type = d) ∧
    (∀ (data : ConfigData) (cm' : ConfigManager),
      updateConfig .ok cm type data = (true, cm') →
      getConfig cm' type = mergeConfig (getConfig cm type) data) := by
  refine ⟨?_, ?_, ?_, ?_⟩
  · intro h
    unfold getConfig
    rw [h]
    rfl
  · intro d h
    unfold getConfig
    rw [h]
    rfl
  · intro remote now cm' d h
    rw [loadConfigType_eq_plan] at h
    injection h with h'
    have h1 : applyLoad cm type (planOf remote now cm type) = cm' :=
      congrArg Prod.fst h'
    have h2 : (planOf remote now cm type).1 = d := congrArg Prod.snd h'
    rw [← h1, ← h2]
    exact getConfig_applyLoad_self cm type _
  · intro data cm' h
    simp only [updateConfig, Prod.mk.injEq] at h
    rw [← h.2]
    unfold getConfig
    simp [mapGet_mapSet]

/-- Witness for C3: the fresh manager returns the empty mapping for an
unloaded type, and after a successful update it returns the merged
config. -/
theorem getConfig_total_last_write_witness :
    mapGet sampleManager.configs "cities" = none ∧
    getConfig sampleManager "cities" = emptyConfig ∧
    updateConfig .ok sampleManager "cities" sampleData =
      (true, (updateConfig .ok sampleManager "cities" sampleData).2) ∧
    getConfig (updateConfig .ok sampleManager "cities" sampleData).2
        "cities" =
      mergeConfig (getConfig sampleManager "cities") sampleData := by
  refine ⟨rfl, (getConfig_total_last_write sampleManager "cities").1 rfl,
    rfl, ?_⟩
  exact (getConfig_total_last_write sampleManager "cities").2.2.2
    sampleData _ rfl

/-- C8: for every type, when the remote document for that type does not
exist (and no fresh cache entry short-circuits the fetch),
`loadConfigType(type)` fulfills with the static built-in default
mapping for that type. -/
theorem loadConfigType_missing_doc_default (remote : Remote) (now : Nat)
    (cm : ConfigManager) (type : String)
    (hmissing : remote type = .missing)
    (hnofresh : ∀ e,
      mapGet cm.cache (cacheKeyFor type cm.sessionId) = some e →
      ¬((now : Int) - (e.timestamp : Int) < (cm.cacheTimeout : Int))) :
    ∃ cm', loadConfigType remote now cm type =
        .ok (cm', getDefaultConfig type) ∧
      getConfig cm' type = getDefaultConfig type := by
  have hplan : planOf remote now cm type =
      (getDefaultConfig type,
       some { data := getDefaultConfig type, timestamp := now }) := by
    cases hc : mapGet cm.cache (cacheKeyFor type cm.sessionId) with
    | none =>
        rw [planOf_of_none remote now cm type hc,
          fetchPlan_missing remote now type hmissing]
    | some e =>
        rw [planOf_of_cached remote now cm type e hc,
          if_neg (hnofresh e hc), fetchPlan_missing remote now type hmissing]
  refine ⟨applyLoad cm type
    (getDefaultConfig type,
     some { data := getDefaultConfig type, timestamp := now }), ?_, ?_⟩
  · rw [loadConfigType_eq_plan, hplan]
  · exact getConfig_applyLoad_self cm type _

/-- Witness for C8: a remote store with no documents at all still
yields the built-in `cities` default. -/
theorem loadConfigType_missing_doc_default_witness :
    (fun _ => FetchOutcome.missing : Remote) "cities" = .missing ∧
    ∃ cm', loadConfigType (fun _ => FetchOutcome.missing) 3 sampleManager
        "cities" = .ok (cm', getDefaultConfig "cities") ∧
      getConfig cm' "cities" = getDefaultConfig "cities" := by
  refine ⟨rfl, ?_⟩
  exact loadConfigType_missing_doc_default (fun _ => FetchOutcome.missing) 3
    sampleManager "cities" rfl (fun e h => Option.noConfusion h)

/-- C4: the cache invariant.  Unique keys in the cache map are
preserved by `loadConfigType`, `updateConfig` and `clearCache` (one
entry per (type, session) cache key); a stale or absent entry sends
`loadConfigType` to the fetch path while a fresh entry is a hit that
returns the cached data with the cache untouched; and a successful
remote fetch stores its result under this type's key with the current
timestamp. -/
theorem cache_invariant_preserved (remote : Remote) (now : Nat)
    (cm : ConfigManager) (type : String) (hnd : NodupKeys cm.cache) :
    (∀ cm' d, loadConfigType remote now cm type = .ok (cm', d) →
      NodupKeys cm'.cache) ∧
    (∀ (upd : UpdateOutcome) (data : ConfigData),
      NodupKeys ((updateConfig upd cm type data).2).cache) ∧
    NodupKeys (clearCache cm).cache ∧
    (∀ e, mapGet cm.cache (cacheKeyFor type cm.sessionId) = some e →
      ¬((now : Int) - (e.timestamp : Int) < (cm.cacheTimeout : Int)) →
      loadConfigType remote now cm type =
        fetchFreshConfig remote now cm type
          (cacheKeyFor type cm.sessionId)) ∧
    (∀ e, mapGet cm.cache (cacheKeyFor type cm.sessionId) = some e →
      ((now : Int) - (e.timestamp : Int) < (cm.cacheTimeout : Int)) →
      loadConfigType remote now cm type =
        .ok ({ cm with configs := mapSet cm.configs type e.data },
             e.data) ∧
        ({ cm with configs := mapSet cm.configs type e.data }
          : ConfigManager).cache = cm.cache) ∧
    (∀ d, remote type = .found d →
      (∀ e, mapGet cm.cache (cacheKeyFor type cm.sessionId) = some e →
        ¬((now : Int) - (e.timestamp : Int) < (cm.cacheTimeout : Int))) →
      ∃ cm', loadConfigType remote now cm type = .ok (cm', d) ∧
        mapGet cm'.cache (cacheKeyFor type cm.sessionId) =
          some { data := d, timestamp := now }) := by
  refine ⟨?_, ?_, ?_, ?_, ?_, ?_⟩
  · intro cm' d h
    rw [loadConfigType_eq_plan] at h
    injection h with h'
    have h1 : applyLoad cm type (planOf remote now cm type) = cm' :=
      congrArg Prod.fst h'
    rw [← h1]
    show NodupKeys (applyLoad cm type (planOf remote now cm type)).cache
    unfold applyLoad
    cases hs : (planOf remote now cm type).2 with
    | none => simpa [hs] using hnd
    | some e =>
        simp only [hs]
        exact NodupKeys_mapSet _ _ _ hnd
  · intro upd data
    cases upd with
    | fail msg => exact hnd
    | ok =>
        simp only [updateConfig]
        exact NodupKeys_mapDelete _ _ hnd
  · simp [clearCache, NodupKeys]
  · intro e hc hstale
    have hplanEq : planOf remote now cm type = fetchPlan remote now type := by
      rw [planOf_of_cached remote now cm type e hc, if_neg hstale]
    rw [loadConfigType_eq_plan, fetchFreshConfig_eq_plan, hplanEq]
  · intro e hc hfresh
    have hplan : planOf remote now cm type = (e.data, none) := by
      rw [planOf_of_cached remote now cm type e hc, if_pos hfresh]
    exact ⟨by rw [loadConfigType_eq_plan, hplan]; rfl, rfl⟩
  · intro d hfound hnofresh
    have hplan : planOf remote now cm type =
        (d, some { data := d, timestamp := now }) := by
      cases hc : mapGet cm.cache (cacheKeyFor type cm.sessionId) with
      | none =>
          rw [planOf_of_none remote now cm type hc,
            fetchPlan_found remote now type d hfound]
      | some e =>
          rw [planOf_of_cached remote now cm type e hc,
            if_neg (hnofresh e hc), fetchPlan_found remote now type d hfound]
    refine ⟨applyLoad cm type (d, some { data := d, timestamp := now }),
      ?_, ?_⟩
    · rw [loadConfigType_eq_plan, hplan]
    · rw [show cacheKeyFor type cm.sessionId =
          cacheKeyFor type
            (applyLoad cm type
              (d, some { data := d, timestamp := now })).sessionId by
          rw [applyLoad_sessionId],
        mapGet_applyLoad_cache_pair_some, applyLoad_sessionId, if_pos rfl]

/-- Witness for C4: the fresh manager's empty cache satisfies the
invariant, and a concrete successful fetch stores the result with the
current timestamp. -/
theorem cache_invariant_preserved_witness :
    NodupKeys sampleManager.cache ∧
    NodupKeys (clearCache sampleManager).cache ∧
    ∃ cm', loadConfigType sampleRemote 5 sampleManager "cities" =
        .ok (cm', sampleData) ∧
      mapGet cm'.cache (cacheKeyFor "cities" sampleManager.sessionId) =
        some { data := sampleData, timestamp := 5 } := by
  have h := cache_invariant_preserved sampleRemote 5 sampleManager "cities"
    List.Pairwise.nil
  exact ⟨List.Pairwise.nil, h.2.2.1,
    h.2.2.2.2.2 sampleData (by decide) (fun e he => Option.noConfusion he)⟩

/-- C5: for every config type and every key that matches no item of
that config, `getConfigItem(type, key)` returns `null`/`undefined`
(modelled as `none`) rather than raising. -/
theorem getConfigItem_unknown_key (cm : ConfigManager) (type key : String)
    (h : ∀ items, (getConfig cm type).items = some items →
      ∀ item ∈ items, item.key ≠ key) :
    getConfigItem cm type key = none := by
  unfold getConfigItem
  cases hi : (getConfig cm type).items with
  | none => rfl
  | some items =>
      rw [List.find?_eq_none]
      intro item hmem
      simp only [beq_iff_eq]
      exact h items hi item hmem

/-- A manager that has loaded the built-in `cities` default, for the
C5 witness. -/
def sampleLoadedManager : ConfigManager :=
  { sampleManager with
      configs := [("cities", getDefaultConfig "cities")] }

/-- Witness for C5: the loaded `cities` config has no item with key
`new-york`, and `getConfigItem` returns `none` for it. -/
theorem getConfigItem_unknown_key_witness :
    getConfigItem sampleLoadedManager "cities" "new-york" = none := by
  apply getConfigItem_unknown_key
  intro items hitems
  have hval : (getConfig sampleLoadedManager "cities").items =
      some ((getDefaultConfig "cities").items.getD []) := by decide
  rw [hval] at hitems
  injection hitems with hi
  rw [← hi]
  decide

/-- C9: `setCurrentCity(cityKey)` is atomic on error: a key absent from
the city list (equivalently, one `getCityByKey` resolves to `none`)
returns `false` and leaves the current city, the persisted browser
storage and the listeners unchanged and unnotified; a present key
returns `true`, sets the current city, persists the key under
`packslist-selected-city` and notifies every registered listener with
the city. -/
theorem setCurrentCity_atomic (lm : LocationManager)
    (store : List (String × String)) (cityKey : String) :
    (getCityByKey lm cityKey = none ↔ ∀ c ∈ lm.cities, c.key ≠ cityKey) ∧
    (getCityByKey lm cityKey = none →
      setCurrentCity lm store cityKey = (false, lm, store, [])) ∧
    (∀ city, getCityByKey lm cityKey = some city →
      setCurrentCity lm store cityKey =
        (true, { lm with currentCity := some city },
         mapSet store "packslist-selected-city" cityKey,
         lm.listeners.map fun l => (l, city))) := by
  refine ⟨?_, ?_, ?_⟩
  · unfold getCityByKey
    rw [List.find?_eq_none]
    simp [beq_iff_eq]
  · intro h
    unfold setCurrentCity
    rw [h]
  · intro city h
    unfold setCurrentCity
    rw [h]

/-- The city list entry for Providence, used by the C9 witness. -/
def cityProvidence : City :=
  { name := "Providence", state := "RI", key := "providence",
    lat := "41.8240", lng := "-71.4128" }

/-- A location manager over the hardcoded city list with two
listeners, for the C9 witness. -/
def sampleLocationManager : LocationManager :=
  { currentCity := none, cities := defaultCities, listeners := [1, 2] }

/-- Witness for C9: an unknown key changes nothing and notifies nobody;
`providence` is found, set, persisted and broadcast to both
listeners. -/
theorem setCurrentCity_atomic_witness :
    (getCityByKey sampleLocationManager "gotham" = none ∧
     setCurrentCity sampleLocationManager [] "gotham" =
       (false, sampleLocationManager, [], [])) ∧
    (getCityByKey sampleLocationManager "providence" =
       some cityProvidence ∧
     setCurrentCity sampleLocationManager [] "providence" =
       (true,
        { sampleLocationManager with currentCity := some cityProvidence },
        mapSet [] "packslist-selected-city" "providence",
        sampleLocationManager.listeners.map fun l => (l, cityProvidence))) := by
  refine ⟨⟨by decide, ?_⟩, ⟨by decide, ?_⟩⟩
  · exact (setCurrentCity_atomic sampleLocationManager [] "gotham").2.1
      (by decide)
  · exact (setCurrentCity_atomic sampleLocationManager [] "providence").2.2
      cityProvidence (by decide)

/-- C10: `updateConfig(type, data)` is atomic on error: a failed remote
update returns `false` with the manager state (configs and cache)
untouched; a successful one returns `true`, merges `data` into the
stored config for the type, evicts exactly that type's cache entry and
touches no other config or cache entry. -/
theorem updateConfig_atomic (cm : ConfigManager) (type : String)
    (data : ConfigData) :
    (∀ msg, updateConfig (.fail msg) cm type data = (false, cm)) ∧
    ∃ cm', updateConfig .ok cm type data = (true, cm') ∧
      mapGet cm'.configs type =
        some (mergeConfig (getConfig cm type) data) ∧
      (∀ k, k ≠ type → mapGet cm'.configs k = mapGet cm.configs k) ∧
      mapGet cm'.cache (cacheKeyFor type cm.sessionId) = none ∧
      (∀ k, k ≠ cacheKeyFor type cm.sessionId →
        mapGet cm'.cache k = mapGet cm.cache k) := by
  refine ⟨fun msg => rfl,
    ⟨{ cm with
         configs := mapSet cm.configs type
           (mergeConfig (getConfig cm type) data),
         cache := mapDelete cm.cache (cacheKeyFor type cm.sessionId) },
     rfl, ?_, ?_, ?_, ?_⟩⟩
  · simp [mapGet_mapSet]
  · intro k hk
    simp [mapGet_mapSet, hk]
  · simp [mapGet_mapDelete]
  · intro k hk
    simp [mapGet_mapDelete, hk]

/-- Witness for C10: a failed update leaves the sample manager intact;
a successful one stores the merged config and leaves the cache without
an entry for the type. -/
theorem updateConfig_atomic_witness :
    updateConfig (.fail "offline") sampleManager "cities" sampleData =
      (false, sampleManager) ∧
    ∃ cm', updateConfig .ok sampleManager "cities" sampleData =
        (true, cm') ∧
      mapGet cm'.configs "cities" =
        some (mergeConfig (getConfig sampleManager "cities") sampleData) ∧
      mapGet cm'.cache
        (cacheKeyFor "cities" sampleManager.sessionId) = none := by
  have h := updateConfig_atomic sampleManager "cities" sampleData
  obtain ⟨cm', h1, h2, _, h4, _⟩ := h.2
  exact ⟨h.1 "offline", cm', h1, h2, h4⟩

/-- C6: cache keys embed the per-instance session identifier: for any
two `ConfigManager` instances whose generated session identifiers
differ, and any config types, the computed cache keys are distinct, so
the two sessions' cache key sets are disjoint and neither ever reads or
writes an entry of the other. -/
theorem cache_keys_session_disjoint (r1 t1 r2 t2 ty1 ty2 : String)
    (hb1 : Base36 r1) (hb2 : Base36 t1) (hb3 : Base36 r2) (hb4 : Base36 t2)
    (hne : generateSessionId r1 t1 ≠ generateSessionId r2 t2) :
    cacheKeyFor ty1 (generateSessionId r1 t1) ≠
      cacheKeyFor ty2 (generateSessionId r2 t2) := by
  intro h
  have hc1 : (generateSessionId r1 t1).data.count '_' = 1 :=
    count_underscore_session hb1 hb2
  have hc2 : (generateSessionId r2 t2).data.count '_' = 1 :=
    count_underscore_session hb3 hb4
  have hd := congrArg String.data h
  rw [cacheKeyFor_data, cacheKeyFor_data, List.append_assoc,
    List.append_assoc] at hd
  have heq := List.append_cancel_left hd
  rcases List.append_eq_append_iff.mp heq with ⟨a, _, ha⟩ | ⟨a, _, ha⟩
  · cases a with
    | nil =>
        rw [List.nil_append] at ha
        injection ha with _ ha2
        exact hne (string_data_inj ha2)
    | cons c rest =>
        rw [List.cons_append] at ha
        injection ha with _ ha2
        have : (generateSessionId r1 t1).data.count '_' =
            rest.count '_' + (1 + (generateSessionId r2 t2).data.count '_') := by
          rw [ha2]
          simp [List.count_append, List.count_cons]
          omega
        omega
  · cases a with
    | nil =>
        rw [List.nil_append] at ha
        injection ha with _ ha2
        exact hne (string_data_inj ha2.symm)
    | cons c rest =>
        rw [List.cons_append] at ha
        injection ha with _ ha2
        have : (generateSessionId r2 t2).data.count '_' =
            rest.count '_' + (1 + (generateSessionId r1 t1).data.count '_') := by
          rw [ha2]
          simp [List.count_append, List.count_cons]
          omega
        omega

/-- Witness for C6: two concrete generated session identifiers with
base-36 fragments yield distinct cache keys even for colliding type
names. -/
theorem cache_keys_session_disjoint_witness :
    Base36 "abc4" ∧ Base36 "k9" ∧ Base36 "zz0" ∧
    generateSessionId "abc4" "k9" ≠ generateSessionId "zz0" "k9" ∧
    cacheKeyFor "cities" (generateSessionId "abc4" "k9") ≠
      cacheKeyFor "cities" (generateSessionId "zz0" "k9") := by
  refine ⟨?_, ?_, ?_, ?_, ?_⟩
  · intro c hc
    fin_cases hc <;> simp [Char.isDigit]
  · intro c hc
    fin_cases hc <;> simp [Char.isDigit]
  · intro c hc
    fin_cases hc <;> simp [Char.isDigit]
  · decide
  · exact cache_keys_session_disjoint "abc4" "k9" "zz0" "k9" "cities"
      "cities"
      (by intro c hc; fin_cases hc <;> simp [Char.isDigit])
      (by intro c hc; fin_cases hc <;> simp [Char.isDigit])
      (by intro c hc; fin_cases hc <;> simp [Char.isDigit])
      (by intro c hc; fin_cases hc <;> simp [Char.isDigit])
      (by decide)

/-- Every settled record produced by folding loads is `fulfilled`, and
one record is produced per requested type. -/
theorem loadAllConfigsIn_snd (remote : Remote) (now : Nat)
    (cm : ConfigManager) (order : List String) :
    (loadAllConfigsIn remote now cm order).2.length = order.length ∧
    ∀ s ∈ (loadAllConfigsIn remote now cm order).2,
      s.isFulfilled = true := by
  suffices h : ∀ (order : List String) (cm : ConfigManager)
      (l : List Settled),
      ((order.foldl
        (fun acc type =>
          match loadConfigType remote now acc.1 type with
          | .ok (cm', d) => (cm', acc.2 ++ [Settled.fulfilled d])
          | .error e => (acc.1, acc.2 ++ [Settled.rejected e]))
        (cm, l)).2.length = l.length + order.length ∧
      ∀ s ∈ (order.foldl
        (fun acc type =>
          match loadConfigType remote now acc.1 type with
          | .ok (cm', d) => (cm', acc.2 ++ [Settled.fulfilled d])
          | .error e => (acc.1, acc.2 ++ [Settled.rejected e]))
        (cm, l)).2, s ∈ l ∨ s.isFulfilled = true) by
    obtain ⟨h1, h2⟩ := h order cm []
    refine ⟨by simpa using h1, fun s hs => ?_⟩
    rcases h2 s hs with hmem | hful
    · exact absurd hmem (List.not_mem_nil s)
    · exact hful
  intro order
  induction order with
  | nil =>
      intro cm l
      exact ⟨rfl, fun s hs => Or.inl hs⟩
  | cons t rest ih =>
      intro cm l
      simp only [List.foldl_cons]
      have hok : loadConfigType remote now cm t =
          .ok (applyLoad cm t (planOf remote now cm t),
               (planOf remote now cm t).1) := loadConfigType_eq_plan _ _ _ _
      simp only [hok]
      obtain ⟨ih1, ih2⟩ := ih (applyLoad cm t (planOf remote now cm t))
        (l ++ [Settled.fulfilled (planOf remote now cm t).1])
      refine ⟨by simpa [Nat.add_assoc, Nat.add_comm, Nat.add_left_comm]
        using ih1, fun s hs => ?_⟩
      rcases ih2 s hs with hmem | hful
      · rcases List.mem_append.mp hmem with hl | hone
        · exact Or.inl hl
        · right
          rw [List.mem_singleton.mp hone]
          rfl
      · exact Or.inr hful

/-- C7: `loadAllConfigs` issues one `loadConfigType` per config type,
for exactly the six types, joins them with the settle-all combinator so
that every batch member settles fulfilled and nothing rejects even when
individual remote reads fail, and imposes no ordering among the
fetches: any issue order produces an observationally identical
manager. -/
theorem loadAllConfigs_settles_all :
    configTypes = ["cities", "product-types", "vendor-categories",
      "metro-areas", "ui-strings", "region-settings"] ∧
    (∀ (remote : Remote) (now : Nat) (cm : ConfigManager),
      (loadAllConfigs remote now cm).2.length = 6 ∧
      ∀ s ∈ (loadAllConfigs remote now cm).2, s.isFulfilled = true) ∧
    (∀ (remote : Remote) (now : Nat) (cm : ConfigManager)
      (order : List String), order.Perm configTypes →
      CMEquiv (loadAllConfigsIn remote now cm order).1
        (loadAllConfigs remote now cm).1) := by
  refine ⟨rfl, fun remote now cm => ?_, fun remote now cm order hp => ?_⟩
  · exact loadAllConfigsIn_snd remote now cm configTypes
  · unfold loadAllConfigs
    rw [loadAllConfigsIn_fst, loadAllConfigsIn_fst]
    exact foldl_loadStep_perm remote now hp cm

/-- Witness for C7: a concrete run over a remote store in which five of
the six reads reject still settles all six loads, and issuing the loads
in reverse order yields an observationally identical manager. -/
theorem loadAllConfigs_settles_all_witness :
    ((loadAllConfigs sampleRemote 0 sampleManager).2.length = 6 ∧
     ∀ s ∈ (loadAllConfigs sampleRemote 0 sampleManager).2,
       s.isFulfilled = true) ∧
    (["region-settings", "ui-strings", "metro-areas",
      "vendor-categories", "product-types", "cities"] : List String).Perm
      configTypes ∧
    CMEquiv (loadAllConfigsIn sampleRemote 0 sampleManager
        ["region-settings", "ui-strings", "metro-areas",
         "vendor-categories", "product-types", "cities"]).1
      (loadAllConfigs sampleRemote 0 sampleManager).1 := by
  refine ⟨loadAllConfigs_settles_all.2.1 sampleRemote 0 sampleManager,
    by decide, ?_⟩
  exact loadAllConfigs_settles_all.2.2 sampleRemote 0 sampleManager
    ["region-settings", "ui-strings", "metro-areas",
     "vendor-categories", "product-types", "cities"] (by decide)
